import Mathlib

/-!
Shallow embedding of the generic CRUD engine of the eco-goinfra `common`
package (`pkg/internal/common/common.go`) together with its error taxonomy
(`pkg/internal/common/errors`).  Resource objects are modelled by their
identity-relevant metadata (name, namespace, resource version) plus an opaque
payload; the Kubernetes client is modelled as an opaque collaborator: a state
type together with one transition function per CRUD verb, each returning the
new state and either a result or a Go error value.  Go `error` values are
modelled by an inductive type that records the wrap chain, so that the
`errors.As`-based predicates of the taxonomy can be stated faithfully.
-/

namespace EcoGoinfra

/-- A Kubernetes resource object, reduced to the metadata the generic engine
reads and writes (ObjectMeta name, namespace, resourceVersion) plus an opaque
payload standing for the rest of the resource. -/
structure Obj where
  name : String
  nsname : String
  resourceVersion : String
  payload : String
deriving DecidableEq, Repr

/-- `key.ResourceKey`: identifies a resource by kind, name and namespace, used
in error messages. -/
structure ResourceKey where
  kind : String
  name : String
  nsname : String
deriving DecidableEq, Repr

/-- `ResourceKey.String`: "Kind Name" for cluster-scoped, "Kind Ns/Name" for
namespaced resources. -/
def ResourceKey.render (k : ResourceKey) : String :=
  if k.nsname = "" then
    k.kind ++ " " ++ k.name
  else
    k.kind ++ " " ++ k.nsname ++ "/" ++ k.name

/-- The object key (`runtimeclient.ObjectKeyFromObject`): name plus namespace,
the lookup key of the backing store. -/
structure OKey where
  name : String
  nsname : String
deriving DecidableEq, Repr

/-- The object key of an object, as computed by
`runtimeclient.ObjectKeyFromObject` from its metadata. -/
def Obj.okey (o : Obj) : OKey :=
  { name := o.name, nsname := o.nsname }

/-- Reasons carried by Kubernetes status errors, as distinguished by the
`k8serrors.IsNotFound` / `k8serrors.IsAlreadyExists` helpers. -/
inductive StatusReason : Type
  | notFound
  | alreadyExists
  | conflict
  | internalError
deriving DecidableEq, Repr

/-- `errors.BuilderField`: which identity field of a builder was empty. -/
inductive BuilderField : Type
  | name
  | nsField
deriving DecidableEq, Repr

/-- `BuilderField` rendered as in the Go constants "name" / "namespace". -/
def BuilderField.render : BuilderField → String
  | .name => "name"
  | .nsField => "namespace"

/-- A Go `error` value, recording the wrap chain.  The first six constructors
are the taxonomy of `pkg/internal/common/errors`; `wrapped` is a
`fmt.Errorf("msg: %w", err)` wrap; `k8sStatus` is a Kubernetes status error;
`simple` is any other leaf error.  Constructors `schemeAttacherFailed`,
`apiCallFailed` and `wrapped` have an `Unwrap` method in the source; the
others are leaves of the chain. -/
inductive GoError : Type
  | apiClientNil (resourceKey : ResourceKey)
  | schemeAttacherFailed (resourceKey : ResourceKey) (cause : GoError)
  | builderFieldEmpty (resourceKey : ResourceKey) (field : BuilderField)
  | apiCallFailed (verb : String) (resourceKey : ResourceKey) (cause : GoError)
  | builderNil
  | builderDefinitionNil (kind : String)
  | wrapped (msg : String) (cause : GoError)
  | k8sStatus (reason : StatusReason)
  | simple (msg : String)
deriving DecidableEq, Repr

/-- The `Error()` string of each modelled error value.  Messages follow the
`Error` methods of the taxonomy; a `wrapped` error renders as
`fmt.Errorf("msg: %w", cause)` does. -/
def GoError.message : GoError → String
  | .apiClientNil k => "apiClient for " ++ k.render ++ " is nil"
  | .schemeAttacherFailed k c =>
      "failed to attach scheme for " ++ k.render ++ ": " ++ c.message
  | .builderFieldEmpty k f =>
      f.render ++ " of the builder for " ++ k.render ++ " is empty"
  | .apiCallFailed v k c => "failed to " ++ v ++ " " ++ k.render ++ ": " ++ c.message
  | .builderNil => "builder is nil"
  | .builderDefinitionNil kind => kind ++ " builder definition is nil"
  | .wrapped m c => m ++ ": " ++ c.message
  | .k8sStatus _ => "status error"
  | .simple m => m

/-- The status reason found by traversing the unwrap chain with `errors.As`,
as `k8serrors.ReasonForError` does.  Only `schemeAttacherFailed`,
`apiCallFailed` and `wrapped` unwrap; the search stops at the first status
error. -/
def GoError.asStatus : GoError → Option StatusReason
  | .k8sStatus r => some r
  | .schemeAttacherFailed _ c => c.asStatus
  | .apiCallFailed _ _ c => c.asStatus
  | .wrapped _ c => c.asStatus
  | _ => none

/-- `k8serrors.IsNotFound`, traversing the wrap chain. -/
def GoError.isNotFound (e : GoError) : Bool :=
  e.asStatus == some .notFound

/-- `k8serrors.IsAlreadyExists`, traversing the wrap chain. -/
def GoError.isAlreadyExists (e : GoError) : Bool :=
  e.asStatus == some .alreadyExists

/-- `errors.IsAPIClientNil`: true if the error, or any error in its unwrap
chain, is an `apiClientNilError`. -/
def IsAPIClientNil : GoError → Bool
  | .apiClientNil _ => true
  | .schemeAttacherFailed _ c => IsAPIClientNil c
  | .apiCallFailed _ _ c => IsAPIClientNil c
  | .wrapped _ c => IsAPIClientNil c
  | _ => false

/-- `errors.IsSchemeAttacherFailed`. -/
def IsSchemeAttacherFailed : GoError → Bool
  | .schemeAttacherFailed _ _ => true
  | .apiCallFailed _ _ c => IsSchemeAttacherFailed c
  | .wrapped _ c => IsSchemeAttacherFailed c
  | _ => false

/-- `errors.IsBuilderNameEmpty`: `errors.As` stops at the first
`builderFieldEmptyError` in the chain and then compares the field. -/
def IsBuilderNameEmpty : GoError → Bool
  | .builderFieldEmpty _ f => f == .name
  | .schemeAttacherFailed _ c => IsBuilderNameEmpty c
  | .apiCallFailed _ _ c => IsBuilderNameEmpty c
  | .wrapped _ c => IsBuilderNameEmpty c
  | _ => false

/-- `errors.IsBuilderNamespaceEmpty`: `errors.As` stops at the first
`builderFieldEmptyError` in the chain and then compares the field. -/
def IsBuilderNamespaceEmpty : GoError → Bool
  | .builderFieldEmpty _ f => f == .nsField
  | .schemeAttacherFailed _ c => IsBuilderNamespaceEmpty c
  | .apiCallFailed _ _ c => IsBuilderNamespaceEmpty c
  | .wrapped _ c => IsBuilderNamespaceEmpty c
  | _ => false

/-- `errors.IsAPICallFailed`. -/
def IsAPICallFailed : GoError → Bool
  | .apiCallFailed _ _ _ => true
  | .schemeAttacherFailed _ c => IsAPICallFailed c
  | .wrapped _ c => IsAPICallFailed c
  | _ => false

/-- `errors.IsAPICallFailedWithVerb`: `errors.As` stops at the first
`apiCallFailedError` in the chain and then compares the verb. -/
def IsAPICallFailedWithVerb (e : GoError) (verb : String) : Bool :=
  match e with
  | .apiCallFailed v _ _ => v == verb
  | .schemeAttacherFailed _ c => IsAPICallFailedWithVerb c verb
  | .wrapped _ c => IsAPICallFailedWithVerb c verb
  | _ => false

/-- `errors.IsBuilderNil`. -/
def IsBuilderNil : GoError → Bool
  | .builderNil => true
  | .schemeAttacherFailed _ c => IsBuilderNil c
  | .apiCallFailed _ _ c => IsBuilderNil c
  | .wrapped _ c => IsBuilderNil c
  | _ => false

/-- `errors.IsBuilderDefinitionNil`. -/
def IsBuilderDefinitionNil : GoError → Bool
  | .builderDefinitionNil _ => true
  | .schemeAttacherFailed _ c => IsBuilderDefinitionNil c
  | .apiCallFailed _ _ c => IsBuilderDefinitionNil c
  | .wrapped _ c => IsBuilderDefinitionNil c
  | _ => false

/-- An error is taxonomy-free if no error of the `common/errors` taxonomy
occurs anywhere in its wrap chain (e.g. it is a plain Kubernetes or transport
error, possibly `fmt.Errorf`-wrapped). -/
def TaxonomyFree : GoError → Bool
  | .k8sStatus _ => true
  | .simple _ => true
  | .wrapped _ c => TaxonomyFree c
  | _ => false

/-- The opaque backing-store collaborator (`runtimeclient.Client`): a state
type `σ` and one transition per CRUD verb.  Each call returns the new store
state and either a result or a Go error. -/
structure ClientM (σ : Type) where
  doGet : σ → OKey → σ × Except GoError Obj
  doCreate : σ → Obj → σ × Except GoError Unit
  doUpdate : σ → Obj → σ × Except GoError Unit
  doDelete : σ → Obj → σ × Except GoError Unit

/-- The client handle as stored in a builder or passed to a constructor: a Go
interface value that can be nil as an interface, nil as a typed concrete
pointer, or a usable client. -/
inductive ClientArg (σ : Type) : Type
  | interfaceNil
  | typedNil
  | valid (c : ClientM σ)

/-- `isInterfaceNil` applied to a client handle: both the interface-nil and
the typed-nil concrete value count as nil. -/
def ClientArg.isNil {σ : Type} : ClientArg σ → Bool
  | .interfaceNil => true
  | .typedNil => true
  | .valid _ => false

/-- The state of a (non-nil) builder: desired-state `Definition`, last
observed `Object`, stored client handle, sticky error, and the GVK kind
recorded at construction.  A nil object pointer is `none`. -/
structure BuilderState (σ : Type) where
  definition : Option Obj
  object : Option Obj
  client : ClientArg σ
  err : Option GoError
  kind : String

/-- A call issued to the backing store, with its argument, for stating which
calls an operation performs. -/
inductive APICall : Type
  | getCall (k : OKey)
  | createCall (o : Obj)
  | updateCall (o : Obj)
  | deleteCall (o : Obj)
deriving DecidableEq, Repr

/-- `NewResourceKeyFromBuilder`: the resource key of a builder, from its GVK
kind and its definition's name and namespace.  In the source it is only
called when the definition is non-nil; the `""` defaults are never reached by
the engine. -/
def NewResourceKeyFromBuilder {σ : Type} (b : BuilderState σ) : ResourceKey :=
  { kind := b.kind
    name := (b.definition.map Obj.name).getD ""
    nsname := (b.definition.map Obj.nsname).getD "" }

/-- The checks of `Validate`, in source order (nil builder, nil definition,
nil client, sticky error), returning on success the components the other
operations read: the builder, its definition and its client.  A sticky error
is wrapped as `fmt.Errorf("failed to validate: %w", err)`. -/
def validated {σ : Type} (b? : Option (BuilderState σ)) :
    Except GoError (BuilderState σ × Obj × ClientM σ) :=
  match b? with
  | none => .error .builderNil
  | some b =>
    match b.definition with
    | none => .error (.builderDefinitionNil b.kind)
    | some d =>
      match b.client with
      | .interfaceNil => .error (.apiClientNil (NewResourceKeyFromBuilder b))
      | .typedNil => .error (.apiClientNil (NewResourceKeyFromBuilder b))
      | .valid c =>
        match b.err with
        | some e => .error (.wrapped "failed to validate" e)
        | none => .ok (b, d, c)

/-- `Validate`: nil only when the builder is non-nil, has a non-nil
definition, a non-nil client, and no sticky error. -/
def Validate {σ : Type} (b? : Option (BuilderState σ)) : Option GoError :=
  match validated b? with
  | .error e => some e
  | .ok _ => none

/-- Result of `Get`: the builder (unmodified by `Get`), the store state, the
calls issued, and the fetched object or an error. -/
structure GetOut (σ : Type) where
  b : Option (BuilderState σ)
  s : σ
  calls : List APICall
  res : Except GoError Obj

/-- Result of an error-returning operation (`Create`, `Update`, `Delete`):
builder after the call, store state, calls issued, and the returned error
(`none` is Go `nil`). -/
structure CrudOut (σ : Type) where
  b : Option (BuilderState σ)
  s : σ
  calls : List APICall
  err : Option GoError

/-- Result of `Exists`: builder, store state, calls, and the boolean. -/
structure ExistsOut (σ : Type) where
  b : Option (BuilderState σ)
  s : σ
  calls : List APICall
  res : Bool

/-- `Get`: validate, then fetch by the definition's object key into a fresh
object; a client failure is wrapped as `APICallFailed("get", key, err)`.  The
builder is not modified. -/
def GetOp {σ : Type} (b? : Option (BuilderState σ)) (s : σ) : GetOut σ :=
  match validated b? with
  | .error e => { b := b?, s := s, calls := [], res := .error e }
  | .ok (b, d, c) =>
    match c.doGet s d.okey with
    | (s', .error e) =>
      { b := b?, s := s', calls := [.getCall d.okey]
        res := .error (.apiCallFailed "get" (NewResourceKeyFromBuilder b) e) }
    | (s', .ok o) =>
      { b := b?, s := s', calls := [.getCall d.okey], res := .ok o }

/-- `Exists`: validate (returning false on failure without a call), then
`Get`; on success store the fetched object in the builder and return true, on
any error return false without modifying the builder. -/
def ExistsOp {σ : Type} (b? : Option (BuilderState σ)) (s : σ) : ExistsOut σ :=
  match Validate b? with
  | some _ => { b := b?, s := s, calls := [], res := false }
  | none =>
    let g := GetOp b? s
    match g.res with
    | .error _ => { b := b?, s := g.s, calls := g.calls, res := false }
    | .ok o =>
      { b := b?.map fun b => { b with object := some o }
        s := g.s, calls := g.calls, res := true }

/-- `Delete`: validate, then issue a delete of the definition; on success or
a not-found response set `Object` to nil and return nil, otherwise wrap as
`APICallFailed("delete", key, err)` without modifying the builder. -/
def DeleteOp {σ : Type} (b? : Option (BuilderState σ)) (s : σ) : CrudOut σ :=
  match validated b? with
  | .error e => { b := b?, s := s, calls := [], err := some e }
  | .ok (b, d, c) =>
    match c.doDelete s d with
    | (s', .ok _) =>
      { b := some { b with object := none }, s := s', calls := [.deleteCall d], err := none }
    | (s', .error e) =>
      if e.isNotFound then
        { b := some { b with object := none }, s := s', calls := [.deleteCall d], err := none }
      else
        { b := b?, s := s', calls := [.deleteCall d]
          err := some (.apiCallFailed "delete" (NewResourceKeyFromBuilder b) e) }

/-- `Create`: validate, clear the definition's resource version, then issue a
create of the definition; on success set `Object` to the definition, on an
already-exists response return nil without touching `Object`, otherwise wrap
as `APICallFailed("create", key, err)`. -/
def CreateOp {σ : Type} (b? : Option (BuilderState σ)) (s : σ) : CrudOut σ :=
  match validated b? with
  | .error e => { b := b?, s := s, calls := [], err := some e }
  | .ok (b, d, c) =>
    let d' : Obj := { d with resourceVersion := "" }
    let b' : BuilderState σ := { b with definition := some d' }
    match c.doCreate s d' with
    | (s', .ok _) =>
      { b := some { b' with object := some d' }, s := s', calls := [.createCall d'], err := none }
    | (s', .error e) =>
      if e.isAlreadyExists then
        { b := some b', s := s', calls := [.createCall d'], err := none }
      else
        { b := some b', s := s', calls := [.createCall d']
          err := some (.apiCallFailed "create" (NewResourceKeyFromBuilder b) e) }

/-- `Update`: validate, fetch the latest object (a failure is returned as
`fmt.Errorf("failed get latest object for update: %w", err)`), copy its
resource version onto the definition, then issue an update.  On success set
`Object` to the definition.  On failure with `force` false wrap as
`APICallFailed("update", key, err)`; with `force` true fall back to `Delete`
then `Create`, wrapping either failure as
`fmt.Errorf("failed to force update: %w", err)`. -/
def UpdateOp {σ : Type} (b? : Option (BuilderState σ)) (s : σ) (force : Bool) : CrudOut σ :=
  match validated b? with
  | .error e => { b := b?, s := s, calls := [], err := some e }
  | .ok (b, d, c) =>
    let g := GetOp b? s
    match g.res with
    | .error e =>
      { b := b?, s := g.s, calls := g.calls
        err := some (.wrapped "failed get latest object for update" e) }
    | .ok latest =>
      let d' : Obj := { d with resourceVersion := latest.resourceVersion }
      let b' : BuilderState σ := { b with definition := some d' }
      match c.doUpdate g.s d' with
      | (s', .ok _) =>
        { b := some { b' with object := some d' }, s := s'
          calls := g.calls ++ [.updateCall d'], err := none }
      | (s', .error e) =>
        if force then
          let del := DeleteOp (some b') s'
          match del.err with
          | some eDel =>
            { b := del.b, s := del.s, calls := g.calls ++ [.updateCall d'] ++ del.calls
              err := some (.wrapped "failed to force update" eDel) }
          | none =>
            let cr := CreateOp del.b del.s
            match cr.err with
            | some eCr =>
              { b := cr.b, s := cr.s
                calls := g.calls ++ [.updateCall d'] ++ del.calls ++ cr.calls
                err := some (.wrapped "failed to force update" eCr) }
            | none =>
              { b := cr.b, s := cr.s
                calls := g.calls ++ [.updateCall d'] ++ del.calls ++ cr.calls
                err := none }
        else
          { b := some b', s := s', calls := g.calls ++ [.updateCall d']
            err := some (.apiCallFailed "update" (NewResourceKeyFromBuilder b) e) }

/-- Result of a constructor (`NewClusterScopedBuilder` /
`NewNamespacedBuilder`): the returned builder pointer (the source always
returns the allocated builder, never a nil literal, so `none` never occurs in
the engine), how many times the scheme attacher was invoked, and the
backing-store calls issued (the constructors issue none). -/
structure ConstructOut (σ : Type) where
  builder : Option (BuilderState σ)
  schemeCalls : Nat
  calls : List APICall

/-- The freshly allocated builder after the initial setter sequence of every
constructor: GVK kind recorded, client stored, definition set to a zero
object with the given name and namespace. -/
def initialBuilder {σ : Type} (kind : String) (apiClient : ClientArg σ)
    (name nsname : String) : BuilderState σ :=
  { definition := some { name := name, nsname := nsname, resourceVersion := "", payload := "" }
    object := none
    client := apiClient
    err := none
    kind := kind }

/-- `NewClusterScopedBuilder`: allocate and populate the builder, then check
the client, the scheme attacher and the name in order, storing the first
failure as the sticky error; the builder itself is returned in every case.
The scheme attacher is modelled by the outcome of its single invocation. -/
def NewClusterScopedBuilder {σ : Type} (kind : String) (apiClient : ClientArg σ)
    (schemeAttach : Except GoError Unit) (name : String) : ConstructOut σ :=
  let b0 := initialBuilder kind apiClient name ""
  let resourceKey := NewResourceKeyFromBuilder b0
  if apiClient.isNil then
    { builder := some { b0 with err := some (.apiClientNil resourceKey) }
      schemeCalls := 0, calls := [] }
  else
    match schemeAttach with
    | .error e =>
      { builder := some { b0 with err := some (.schemeAttacherFailed resourceKey e) }
        schemeCalls := 1, calls := [] }
    | .ok _ =>
      if name = "" then
        { builder := some { b0 with err := some (.builderFieldEmpty resourceKey .name) }
          schemeCalls := 1, calls := [] }
      else
        { builder := some b0, schemeCalls := 1, calls := [] }

/-- `NewNamespacedBuilder`: as the cluster-scoped constructor, with the
namespace set on the definition and checked for emptiness after the name. -/
def NewNamespacedBuilder {σ : Type} (kind : String) (apiClient : ClientArg σ)
    (schemeAttach : Except GoError Unit) (name nsname : String) : ConstructOut σ :=
  let b0 := initialBuilder kind apiClient name nsname
  let resourceKey := NewResourceKeyFromBuilder b0
  if apiClient.isNil then
    { builder := some { b0 with err := some (.apiClientNil resourceKey) }
      schemeCalls := 0, calls := [] }
  else
    match schemeAttach with
    | .error e =>
      { builder := some { b0 with err := some (.schemeAttacherFailed resourceKey e) }
        schemeCalls := 1, calls := [] }
    | .ok _ =>
      if name = "" then
        { builder := some { b0 with err := some (.builderFieldEmpty resourceKey .name) }
          schemeCalls := 1, calls := [] }
      else
        if nsname = "" then
          { builder := some { b0 with err := some (.builderFieldEmpty resourceKey .nsField) }
            schemeCalls := 1, calls := [] }
        else
          { builder := some b0, schemeCalls := 1, calls := [] }

/-- Result of a pull constructor: the builder or the error (Go returns
`(nil, err)` on failure, modelled by `Except`), the store state, the calls
issued, and the number of scheme-attacher invocations. -/
structure PullOut (σ : Type) where
  res : Except GoError (BuilderState σ)
  s : σ
  calls : List APICall
  schemeCalls : Nat

/-- `PullClusterScopedBuilder`: same prelude as the constructor but failures
are returned (with a nil builder) instead of stored; then `Get` is performed
and, on failure, its error is returned wrapped as
`fmt.Errorf("failed to pull builder: %w", err)`; on success both `Object` and
`Definition` are overwritten with the fetched state. -/
def PullClusterScopedBuilder {σ : Type} (kind : String) (apiClient : ClientArg σ)
    (schemeAttach : Except GoError Unit) (name : String) (s : σ) : PullOut σ :=
  let b0 := initialBuilder kind apiClient name ""
  let resourceKey := NewResourceKeyFromBuilder b0
  if apiClient.isNil then
    { res := .error (.apiClientNil resourceKey), s := s, calls := [], schemeCalls := 0 }
  else
    match schemeAttach with
    | .error e =>
      { res := .error (.schemeAttacherFailed resourceKey e), s := s, calls := [], schemeCalls := 1 }
    | .ok _ =>
      if name = "" then
        { res := .error (.builderFieldEmpty resourceKey .name), s := s, calls := []
          schemeCalls := 1 }
      else
        let g := GetOp (some b0) s
        match g.res with
        | .error e =>
          { res := .error (.wrapped "failed to pull builder" e), s := g.s, calls := g.calls
            schemeCalls := 1 }
        | .ok o =>
          { res := .ok { b0 with object := some o, definition := some o }, s := g.s
            calls := g.calls, schemeCalls := 1 }

/-- `PullNamespacedBuilder`: as the cluster-scoped pull, with the namespace
set and checked after the name. -/
def PullNamespacedBuilder {σ : Type} (kind : String) (apiClient : ClientArg σ)
    (schemeAttach : Except GoError Unit) (name nsname : String) (s : σ) : PullOut σ :=
  let b0 := initialBuilder kind apiClient name nsname
  let resourceKey := NewResourceKeyFromBuilder b0
  if apiClient.isNil then
    { res := .error (.apiClientNil resourceKey), s := s, calls := [], schemeCalls := 0 }
  else
    match schemeAttach with
    | .error e =>
      { res := .error (.schemeAttacherFailed resourceKey e), s := s, calls := [], schemeCalls := 1 }
    | .ok _ =>
      if name = "" then
        { res := .error (.builderFieldEmpty resourceKey .name), s := s, calls := []
          schemeCalls := 1 }
      else
        if nsname = "" then
          { res := .error (.builderFieldEmpty resourceKey .nsField), s := s, calls := []
            schemeCalls := 1 }
        else
          let g := GetOp (some b0) s
          match g.res with
          | .error e =>
            { res := .error (.wrapped "failed to pull builder" e), s := g.s, calls := g.calls
              schemeCalls := 1 }
          | .ok o =>
            { res := .ok { b0 with object := some o, definition := some o }, s := g.s
              calls := g.calls, schemeCalls := 1 }

/-!
A concrete backing store: a key-indexed association list of objects, with the
standard Kubernetes behaviour of each verb (get/update/delete of an absent
key fail not-found; create of a present key fails already-exists).
-/

/-- The concrete backing store: a key-indexed map, as an association list. -/
abbrev Store : Type := List (OKey × Obj)

/-- Look up an object by key. -/
def storeGet (s : Store) (k : OKey) : Option Obj :=
  (s.find? fun p => p.1 == k).map Prod.snd

/-- Replace the object stored at key `k`. -/
def storeReplace (s : Store) (k : OKey) (o : Obj) : Store :=
  s.map fun p => if p.1 == k then (k, o) else p

/-- Remove the object stored at key `k`. -/
def storeRemove (s : Store) (k : OKey) : Store :=
  s.filter fun p => !(p.1 == k)

/-- The map-backed client: get fails not-found on an absent key; create fails
already-exists on a present key and inserts otherwise; update replaces a
present key and fails not-found otherwise; delete removes a present key and
fails not-found otherwise. -/
def mapClient : ClientM Store where
  doGet s k :=
    match storeGet s k with
    | some o => (s, .ok o)
    | none => (s, .error (.k8sStatus .notFound))
  doCreate s o :=
    match storeGet s o.okey with
    | some _ => (s, .error (.k8sStatus .alreadyExists))
    | none => ((o.okey, o) :: s, .ok ())
  doUpdate s o :=
    match storeGet s o.okey with
    | some _ => (storeReplace s o.okey o, .ok ())
    | none => (s, .error (.k8sStatus .notFound))
  doDelete s o :=
    match storeGet s o.okey with
    | some _ => (storeRemove s o.okey, .ok ())
    | none => (s, .error (.k8sStatus .notFound))

/-!
Concrete fixtures for instantiating the general theorems, and the claim
properties as named propositions (each is stated over the embedded engine and
proved below).
-/

/-- A concrete resource object. -/
def demoObj : Obj :=
  { name := "test-resource-name", nsname := "", resourceVersion := "5", payload := "spec" }

/-- A concrete valid builder over the map-backed store. -/
def demoBuilder : BuilderState Store :=
  { definition := some demoObj, object := none, client := .valid mapClient
    err := none, kind := "Namespace" }

/-- A concrete store containing exactly the demo object. -/
def demoStore : Store := [(demoObj.okey, demoObj)]

/-- The demo builder with a sticky error recorded. -/
def stickyBuilder : BuilderState Store :=
  { demoBuilder with err := some (.simple "banana") }

/-- A client over the map-backed store whose update calls always fail with a
conflict, as a Kubernetes API server does on a stale resource version. -/
def conflictClient : ClientM Store :=
  { mapClient with doUpdate := fun s _ => (s, .error (.k8sStatus .conflict)) }

/-- The demo builder wired to the conflicting client. -/
def conflictBuilder : BuilderState Store :=
  { demoBuilder with client := .valid conflictClient }

/-- An error wrapped under a list of `fmt.Errorf("m: %w", ·)` messages,
outermost first. -/
def wrapMany : List String → GoError → GoError
  | [], e => e
  | m :: ms, e => .wrapped m (wrapMany ms e)

/-- Delete semantics on a valid builder (claim C4): a successful delete call
and a not-found response both clear `Object` and return nil; any other
failure returns `APICallFailed("delete")` and leaves the whole builder
unmodified. -/
def DeleteSemantics {σ : Type} (c : ClientM σ) (s : σ) (b : BuilderState σ) (d : Obj) : Prop :=
  (∀ s' u, c.doDelete s d = (s', .ok u) →
    DeleteOp (some b) s =
      { b := some { b with object := none }, s := s', calls := [.deleteCall d], err := none }) ∧
  (∀ s' e, c.doDelete s d = (s', .error e) → e.isNotFound = true →
    DeleteOp (some b) s =
      { b := some { b with object := none }, s := s', calls := [.deleteCall d], err := none }) ∧
  (∀ s' e, c.doDelete s d = (s', .error e) → e.isNotFound = false →
    DeleteOp (some b) s =
      { b := some b, s := s', calls := [.deleteCall d]
        err := some (.apiCallFailed "delete" (NewResourceKeyFromBuilder b) e) } ∧
    IsAPICallFailedWithVerb (.apiCallFailed "delete" (NewResourceKeyFromBuilder b) e) "delete"
      = true)

/-- Create semantics on a valid builder (claim C5): success sets `Object` to
the definition (resource version cleared) and returns nil; an already-exists
response returns nil without touching `Object`; any other failure returns
`APICallFailed("create")`. -/
def CreateSemantics {σ : Type} (c : ClientM σ) (s : σ) (b : BuilderState σ) (d : Obj) : Prop :=
  (∀ s' u, c.doCreate s { d with resourceVersion := "" } = (s', .ok u) →
    CreateOp (some b) s =
      { b := some { b with definition := some { d with resourceVersion := "" },
                           object := some { d with resourceVersion := "" } }
        s := s', calls := [.createCall { d with resourceVersion := "" }], err := none }) ∧
  (∀ s' e, c.doCreate s { d with resourceVersion := "" } = (s', .error e) →
      e.isAlreadyExists = true →
    CreateOp (some b) s =
      { b := some { b with definition := some { d with resourceVersion := "" } }
        s := s', calls := [.createCall { d with resourceVersion := "" }], err := none }) ∧
  (∀ s' e, c.doCreate s { d with resourceVersion := "" } = (s', .error e) →
      e.isAlreadyExists = false →
    CreateOp (some b) s =
      { b := some { b with definition := some { d with resourceVersion := "" } }
        s := s', calls := [.createCall { d with resourceVersion := "" }]
        err := some (.apiCallFailed "create" (NewResourceKeyFromBuilder b) e) } ∧
    IsAPICallFailedWithVerb (.apiCallFailed "create" (NewResourceKeyFromBuilder b) e) "create"
      = true)

/-- Frame effect of Create on the definition (claim C10): whatever the client
answers, the create call is issued on the definition with its resource
version cleared and the builder's definition keeps that cleared value. -/
def CreateClearsResourceVersion {σ : Type} (s : σ)
    (b : BuilderState σ) (d : Obj) : Prop :=
  (CreateOp (some b) s).calls = [.createCall { d with resourceVersion := "" }] ∧
  ((CreateOp (some b) s).b.map fun x => x.definition) =
    some (some { d with resourceVersion := "" })

/-- Sticky-error semantics (claim C2, amended): every operation on a builder
with a sticky error returns that error wrapped as
`fmt.Errorf("failed to validate: %w", err)`, `Exists` returns false, and none
of them issues a backing-store call or changes the builder or the store. -/
def StickyErrorSemantics {σ : Type} (s : σ) (b : BuilderState σ) (e : GoError) : Prop :=
  GetOp (some b) s =
    { b := some b, s := s, calls := [], res := .error (.wrapped "failed to validate" e) } ∧
  ExistsOp (some b) s = { b := some b, s := s, calls := [], res := false } ∧
  CreateOp (some b) s =
    { b := some b, s := s, calls := [], err := some (.wrapped "failed to validate" e) } ∧
  DeleteOp (some b) s =
    { b := some b, s := s, calls := [], err := some (.wrapped "failed to validate" e) } ∧
  (∀ force, UpdateOp (some b) s force =
    { b := some b, s := s, calls := [], err := some (.wrapped "failed to validate" e) })

/-- Nil-client construction semantics (claim C3): both constructors return a
non-nil builder whose sticky error satisfies `IsAPIClientNil`, invoke the
scheme attacher zero times, and issue no backing-store call. -/
def NilClientConstructSemantics (σ : Type) (kind name nsname : String)
    (apiClient : ClientArg σ) (schemeAttach : Except GoError Unit) : Prop :=
  (NewClusterScopedBuilder kind apiClient schemeAttach name =
    ({ builder := some { initialBuilder kind apiClient name "" with
                           err := some (.apiClientNil ⟨kind, name, ""⟩) }
       schemeCalls := 0, calls := [] } : ConstructOut σ)) ∧
  IsAPIClientNil (.apiClientNil ⟨kind, name, ""⟩) = true ∧
  (NewNamespacedBuilder kind apiClient schemeAttach name nsname =
    ({ builder := some { initialBuilder kind apiClient name nsname with
                           err := some (.apiClientNil ⟨kind, name, nsname⟩) }
       schemeCalls := 0, calls := [] } : ConstructOut σ)) ∧
  IsAPIClientNil (.apiClientNil ⟨kind, name, nsname⟩) = true

/-- Update semantics when the pre-update fetch fails (claim C8, amended): for
either force value the returned error wraps the fetch failure as
`fmt.Errorf("failed get latest object for update: %w", err)` whose chain
satisfies `IsAPICallFailedWithVerb · "get"`, only the get call is issued, and
the builder is unchanged. -/
def UpdateFetchFailSemantics {σ : Type} (s s1 : σ) (b : BuilderState σ)
    (d : Obj) (eG : GoError) : Prop :=
  (∀ force, UpdateOp (some b) s force =
    { b := some b, s := s1, calls := [.getCall d.okey]
      err := some (.wrapped "failed get latest object for update"
        (.apiCallFailed "get" (NewResourceKeyFromBuilder b) eG)) }) ∧
  IsAPICallFailedWithVerb
    (.wrapped "failed get latest object for update"
      (.apiCallFailed "get" (NewResourceKeyFromBuilder b) eG)) "get" = true

/-- Force-update semantics (claim C1): with the resource fetched as `latest`
and the update call failing with `eU`, force=false returns
`APICallFailed("update")` after only the get and update calls; force=true
deletes then recreates from the definition (resource version cleared before
the create call), returning nil when both succeed and a
`"failed to force update"`-wrapped error when either fails. -/
def ForceUpdateSemantics {σ : Type} (c : ClientM σ) (s s2 : σ)
    (b : BuilderState σ) (d latest : Obj) (eU : GoError) : Prop :=
  (UpdateOp (some b) s false =
    { b := some { b with definition := some { d with resourceVersion := latest.resourceVersion } }
      s := s2
      calls := [.getCall d.okey, .updateCall { d with resourceVersion := latest.resourceVersion }]
      err := some (.apiCallFailed "update" (NewResourceKeyFromBuilder b) eU) } ∧
   IsAPICallFailedWithVerb (.apiCallFailed "update" (NewResourceKeyFromBuilder b) eU) "update"
     = true) ∧
  (∀ s3 u, c.doDelete s2 { d with resourceVersion := latest.resourceVersion } = (s3, .ok u) →
    (∀ s4 u', c.doCreate s3 { d with resourceVersion := "" } = (s4, .ok u') →
      UpdateOp (some b) s true =
        { b := some { b with definition := some { d with resourceVersion := "" },
                             object := some { d with resourceVersion := "" } }
          s := s4
          calls := [.getCall d.okey,
                    .updateCall { d with resourceVersion := latest.resourceVersion },
                    .deleteCall { d with resourceVersion := latest.resourceVersion },
                    .createCall { d with resourceVersion := "" }]
          err := none }) ∧
    (∀ s4 eC, c.doCreate s3 { d with resourceVersion := "" } = (s4, .error eC) →
        eC.isAlreadyExists = false →
      (UpdateOp (some b) s true).err =
        some (.wrapped "failed to force update"
          (.apiCallFailed "create" (NewResourceKeyFromBuilder b) eC)))) ∧
  (∀ s3 eD, c.doDelete s2 { d with resourceVersion := latest.resourceVersion }
      = (s3, .error eD) → eD.isNotFound = false →
    (UpdateOp (some b) s true).err =
      some (.wrapped "failed to force update"
        (.apiCallFailed "delete" (NewResourceKeyFromBuilder b) eD)) ∧
    (UpdateOp (some b) s true).calls =
      [.getCall d.okey,
       .updateCall { d with resourceVersion := latest.resourceVersion },
       .deleteCall { d with resourceVersion := latest.resourceVersion }])

/-- Create/Get round trip over the map-backed store (claim C6): a successful
create followed by a get returns exactly the builder's definition. -/
def CreateGetRoundTrip (s : Store) (b : BuilderState Store) (d : Obj) : Prop :=
  (CreateOp (some b) s).err = none ∧
  (GetOp (CreateOp (some b) s).b (CreateOp (some b) s).s).res =
    .ok { d with resourceVersion := "" } ∧
  ((CreateOp (some b) s).b.map fun x => x.definition) =
    some (some { d with resourceVersion := "" })

/-- Pull semantics over the map-backed store (claim C7): for a non-empty name
(and namespace), pulling an absent resource returns an error (and no builder)
whose wrap chain is a not-found, and pulling a present resource returns a
builder whose definition and object are both the fetched state. -/
def PullSemantics (kind name nsname : String) (s : Store) : Prop :=
  (storeGet s ⟨name, ""⟩ = none →
    (PullClusterScopedBuilder kind (.valid mapClient) (.ok ()) name s).res =
      .error (.wrapped "failed to pull builder"
        (.apiCallFailed "get" ⟨kind, name, ""⟩ (.k8sStatus .notFound))) ∧
    GoError.isNotFound (.wrapped "failed to pull builder"
      (.apiCallFailed "get" ⟨kind, name, ""⟩ (.k8sStatus .notFound))) = true) ∧
  (∀ o, storeGet s ⟨name, ""⟩ = some o →
    ∃ bF, (PullClusterScopedBuilder kind (.valid mapClient) (.ok ()) name s).res = .ok bF ∧
      bF.definition = some o ∧ bF.object = some o) ∧
  (storeGet s ⟨name, nsname⟩ = none →
    (PullNamespacedBuilder kind (.valid mapClient) (.ok ()) name nsname s).res =
      .error (.wrapped "failed to pull builder"
        (.apiCallFailed "get" ⟨kind, name, nsname⟩ (.k8sStatus .notFound))) ∧
    GoError.isNotFound (.wrapped "failed to pull builder"
      (.apiCallFailed "get" ⟨kind, name, nsname⟩ (.k8sStatus .notFound))) = true) ∧
  (∀ o, storeGet s ⟨name, nsname⟩ = some o →
    ∃ bF, (PullNamespacedBuilder kind (.valid mapClient) (.ok ()) name nsname s).res = .ok bF ∧
      bF.definition = some o ∧ bF.object = some o)

/-- The results of all the taxonomy predicates on one error, in a fixed
order: client-nil, scheme-attach-failed, name-empty, namespace-empty,
api-call-failed, api-call-failed with `verb`, api-call-failed with `verb2`,
builder-nil, definition-nil. -/
def predicateVector (e : GoError) (verb verb2 : String) : List Bool :=
  [IsAPIClientNil e, IsSchemeAttacherFailed e, IsBuilderNameEmpty e,
   IsBuilderNamespaceEmpty e, IsAPICallFailed e, IsAPICallFailedWithVerb e verb,
   IsAPICallFailedWithVerb e verb2, IsBuilderNil e, IsBuilderDefinitionNil e]

/-- Predicate truth table (claim C9): for each error built by one of the six
taxonomy constructors and then wrapped under any number of messages, the
matching predicate is true and every predicate of a different kind — or of
the same kind with a different verb or field — is false. -/
def PredicateTable (ms : List String) (rk : ResourceKey) (kind verb verb2 : String)
    (cause : GoError) : Prop :=
  predicateVector (wrapMany ms (.apiClientNil rk)) verb verb2 =
    [true, false, false, false, false, false, false, false, false] ∧
  predicateVector (wrapMany ms (.schemeAttacherFailed rk cause)) verb verb2 =
    [false, true, false, false, false, false, false, false, false] ∧
  predicateVector (wrapMany ms (.builderFieldEmpty rk .name)) verb verb2 =
    [false, false, true, false, false, false, false, false, false] ∧
  predicateVector (wrapMany ms (.builderFieldEmpty rk .nsField)) verb verb2 =
    [false, false, false, true, false, false, false, false, false] ∧
  predicateVector (wrapMany ms (.apiCallFailed verb rk cause)) verb verb2 =
    [false, false, false, false, true, true, false, false, false] ∧
  predicateVector (wrapMany ms .builderNil) verb verb2 =
    [false, false, false, false, false, false, false, true, false] ∧
  predicateVector (wrapMany ms (.builderDefinitionNil kind)) verb verb2 =
    [false, false, false, false, false, false, false, false, true]

/-!
Theorems.  `validated_ok` is the shared helper: on a builder that is non-nil
and has a definition, a valid client and no sticky error, the validation of
the source succeeds and returns the components the operations use.
-/

theorem validated_ok {σ : Type} (b : BuilderState σ) (d : Obj) (c : ClientM σ)
    (hd : b.definition = some d) (hc : b.client = .valid c) (he : b.err = none) :
    validated (some b) = .ok (b, d, c) := by
  simp [validated, hd, hc, he]

/-- C4: for every valid builder, Delete returns nil and sets Object to nil
both on a successful delete call and on a not-found response; any other
failure returns an error satisfying the APICallFailed predicate with verb
"delete" and leaves every builder field unmodified. -/
theorem delete_success_notfound_and_failure {σ : Type} (c : ClientM σ) (s : σ)
    (b : BuilderState σ) (d : Obj)
    (hd : b.definition = some d) (hc : b.client = .valid c) (he : b.err = none) :
    DeleteSemantics c s b d := by
  have hv := validated_ok b d c hd hc he
  refine ⟨?_, ?_, ?_⟩
  · intro s' u hcall
    simp [DeleteSemantics, DeleteOp, hv, hcall]
  · intro s' e hcall hnf
    simp [DeleteSemantics, DeleteOp, hv, hcall, hnf]
  · intro s' e hcall hnf
    refine ⟨?_, ?_⟩
    · simp [DeleteSemantics, DeleteOp, hv, hcall, hnf]
    · simp [IsAPICallFailedWithVerb]

/-- Witness for C4 at a concrete input: the demo builder over the map-backed
store is valid, and the delete semantics hold for it. -/
theorem delete_success_notfound_and_failure_witness :
    demoBuilder.definition = some demoObj ∧
    demoBuilder.client = ClientArg.valid mapClient ∧
    demoBuilder.err = none ∧
    DeleteSemantics mapClient demoStore demoBuilder demoObj :=
  ⟨rfl, rfl, rfl,
   delete_success_notfound_and_failure mapClient demoStore demoBuilder demoObj rfl rfl rfl⟩

/-- C5: for every valid builder, Create returns nil and sets Object to the
definition on success, returns nil without touching Object on an
already-exists response, and wraps any other failure as an error satisfying
the APICallFailed predicate with verb "create". -/
theorem create_success_alreadyexists_and_failure {σ : Type} (c : ClientM σ) (s : σ)
    (b : BuilderState σ) (d : Obj)
    (hd : b.definition = some d) (hc : b.client = .valid c) (he : b.err = none) :
    CreateSemantics c s b d := by
  have hv := validated_ok b d c hd hc he
  refine ⟨?_, ?_, ?_⟩
  · intro s' u hcall
    simp [CreateSemantics, CreateOp, hv, hcall]
  · intro s' e hcall hae
    simp [CreateSemantics, CreateOp, hv, hcall, hae]
  · intro s' e hcall hae
    refine ⟨?_, ?_⟩
    · simp [CreateSemantics, CreateOp, hv, hcall, hae]
    · simp [IsAPICallFailedWithVerb]

/-- Witness for C5 at a concrete input. -/
theorem create_success_alreadyexists_and_failure_witness :
    demoBuilder.definition = some demoObj ∧
    demoBuilder.client = ClientArg.valid mapClient ∧
    demoBuilder.err = none ∧
    CreateSemantics mapClient demoStore demoBuilder demoObj :=
  ⟨rfl, rfl, rfl,
   create_success_alreadyexists_and_failure mapClient demoStore demoBuilder demoObj rfl rfl rfl⟩

/-- C10: for every valid builder, Create issues its call on the definition
with the resource version cleared, and the builder's definition keeps the
cleared resource version on every outcome, including failures and
already-exists responses. -/
theorem create_clears_resource_version_always {σ : Type} (c : ClientM σ) (s : σ)
    (b : BuilderState σ) (d : Obj)
    (hd : b.definition = some d) (hc : b.client = .valid c) (he : b.err = none) :
    CreateClearsResourceVersion s b d := by
  have hv := validated_ok b d c hd hc he
  rcases hcall : c.doCreate s { d with resourceVersion := "" } with ⟨s', r⟩
  rcases r with e | u
  · by_cases hae : e.isAlreadyExists
    · constructor <;> simp [CreateClearsResourceVersion, CreateOp, hv, hcall, hae]
    · constructor <;> simp [CreateClearsResourceVersion, CreateOp, hv, hcall, hae]
  · constructor <;> simp [CreateClearsResourceVersion, CreateOp, hv, hcall]

/-- Witness for C10 at a concrete input: the demo builder's definition has a
non-empty resource version, and Create still clears it. -/
theorem create_clears_resource_version_always_witness :
    demoBuilder.definition = some demoObj ∧
    demoBuilder.client = ClientArg.valid mapClient ∧
    demoBuilder.err = none ∧
    demoObj.resourceVersion = "5" ∧
    CreateClearsResourceVersion demoStore demoBuilder demoObj :=
  ⟨rfl, rfl, rfl, rfl,
   create_clears_resource_version_always mapClient demoStore demoBuilder demoObj rfl rfl rfl⟩

/-- C2 counterexample: on a builder whose sticky error is `simple "banana"`,
Get does not return the sticky error unmodified — it returns the error
wrapped as "failed to validate". -/
theorem sticky_error_not_returned_unmodified :
    (GetOp (some stickyBuilder) ([] : Store)).res =
      .error (.wrapped "failed to validate" (.simple "banana")) ∧
    (GetOp (some stickyBuilder) ([] : Store)).res ≠ .error (.simple "banana") := by
  constructor
  · rfl
  · show (Except.error (.wrapped "failed to validate" (.simple "banana")) : Except GoError Obj) ≠
      .error (.simple "banana")
    simp

/-- C2 (amended): every operation on a builder with a sticky error returns
that error wrapped as "failed to validate: …" (not unmodified), Exists
returns false, and no backing-store call is issued and no builder field or
store state is changed. -/
theorem sticky_error_short_circuits {σ : Type} (c : ClientM σ) (s : σ)
    (b : BuilderState σ) (d : Obj) (e : GoError)
    (hd : b.definition = some d) (hc : b.client = .valid c) (he : b.err = some e) :
    StickyErrorSemantics s b e := by
  have hval : validated (some b) = .error (.wrapped "failed to validate" e) := by
    simp [validated, hd, hc, he]
  refine ⟨?_, ?_, ?_, ?_, ?_⟩
  · simp [StickyErrorSemantics, GetOp, hval]
  · simp [StickyErrorSemantics, ExistsOp, Validate, hval]
  · simp [StickyErrorSemantics, CreateOp, hval]
  · simp [StickyErrorSemantics, DeleteOp, hval]
  · intro force
    simp [StickyErrorSemantics, UpdateOp, hval]

/-- Witness for the amended C2 at a concrete input. -/
theorem sticky_error_short_circuits_witness :
    stickyBuilder.definition = some demoObj ∧
    stickyBuilder.client = ClientArg.valid mapClient ∧
    stickyBuilder.err = some (.simple "banana") ∧
    StickyErrorSemantics ([] : Store) stickyBuilder (.simple "banana") :=
  ⟨rfl, rfl, rfl,
   sticky_error_short_circuits mapClient ([] : Store) stickyBuilder demoObj
     (.simple "banana") rfl rfl rfl⟩

/-- C3: for every name and namespace and every client handle that is nil
either as an interface value or as a typed-nil concrete value, both
constructors return a non-nil builder whose sticky error satisfies the
ClientNil predicate, never invoke the scheme attacher, and issue no
backing-store call. -/
theorem new_builder_nil_client_sticky_error (σ : Type) (kind name nsname : String)
    (apiClient : ClientArg σ) (schemeAttach : Except GoError Unit)
    (hnil : apiClient.isNil = true) :
    NilClientConstructSemantics σ kind name nsname apiClient schemeAttach := by
  refine ⟨?_, ?_, ?_, ?_⟩
  · simp [NewClusterScopedBuilder, initialBuilder, NewResourceKeyFromBuilder, hnil]
  · simp [IsAPIClientNil]
  · simp [NewNamespacedBuilder, initialBuilder, NewResourceKeyFromBuilder, hnil]
  · simp [IsAPIClientNil]

/-- Witness for C3 at a concrete input: a typed-nil client handle. -/
theorem new_builder_nil_client_sticky_error_witness :
    (ClientArg.typedNil : ClientArg Store).isNil = true ∧
    NilClientConstructSemantics Store "Namespace" "test-resource-name" "test-ns"
      ClientArg.typedNil (.ok ()) :=
  ⟨rfl,
   new_builder_nil_client_sticky_error Store "Namespace" "test-resource-name" "test-ns"
     ClientArg.typedNil (.ok ()) rfl⟩

/-- C8 counterexample: on the demo builder over an empty store, the update
returns the fetch failure wrapped with the message
"failed get latest object for update" — not
"failed to get latest object for update" as the claim states. -/
theorem update_fetch_failure_message_counterexample :
    (UpdateOp (some demoBuilder) ([] : Store) false).err =
      some (.wrapped "failed get latest object for update"
        (.apiCallFailed "get" ⟨"Namespace", "test-resource-name", ""⟩
          (.k8sStatus .notFound))) ∧
    ((UpdateOp (some demoBuilder) ([] : Store) false).err.map GoError.message) =
      some "failed get latest object for update: failed to get Namespace test-resource-name: status error" ∧
    "failed get latest object for update" ≠ "failed to get latest object for update" := by
  refine ⟨rfl, rfl, by decide⟩

/-- C8 (amended): for every valid builder whose pre-update fetch fails,
Update with either force value issues only the get call, leaves the builder
unchanged, and returns the fetch failure wrapped with the message
"failed get latest object for update", whose chain satisfies the
APICallFailed predicate with verb "get". -/
theorem update_fetch_failure_wrap {σ : Type} (c : ClientM σ) (s s1 : σ)
    (b : BuilderState σ) (d : Obj) (eG : GoError)
    (hd : b.definition = some d) (hc : b.client = .valid c) (he : b.err = none)
    (hget : c.doGet s d.okey = (s1, .error eG)) :
    UpdateFetchFailSemantics s s1 b d eG := by
  have hv := validated_ok b d c hd hc he
  constructor
  · intro force
    simp [UpdateFetchFailSemantics, UpdateOp, GetOp, hv, hget]
  · simp [IsAPICallFailedWithVerb]

/-- Witness for the amended C8 at a concrete input: the demo builder over an
empty store. -/
theorem update_fetch_failure_wrap_witness :
    demoBuilder.definition = some demoObj ∧
    demoBuilder.client = ClientArg.valid mapClient ∧
    demoBuilder.err = none ∧
    mapClient.doGet ([] : Store) demoObj.okey = (([] : Store), .error (.k8sStatus .notFound)) ∧
    UpdateFetchFailSemantics ([] : Store) ([] : Store) demoBuilder demoObj
      (.k8sStatus .notFound) :=
  ⟨rfl, rfl, rfl, rfl,
   update_fetch_failure_wrap mapClient ([] : Store) ([] : Store) demoBuilder demoObj
     (.k8sStatus .notFound) rfl rfl rfl rfl⟩

/-- C6: for every valid builder over the map-backed store whose resource is
absent (so the create call itself succeeds), Create followed by Get returns
exactly the builder's definition. -/
theorem create_then_get_returns_definition (s : Store) (b : BuilderState Store) (d : Obj)
    (hd : b.definition = some d) (hc : b.client = .valid mapClient) (he : b.err = none)
    (habsent : storeGet s d.okey = none) :
    CreateGetRoundTrip s b d := by
  have hv := validated_ok b d mapClient hd hc he
  have hk : storeGet s ({ name := d.name, nsname := d.nsname } : OKey) = none := by
    simpa [Obj.okey] using habsent
  have hcall : mapClient.doCreate s { d with resourceVersion := "" } =
      ((d.okey, { d with resourceVersion := "" }) :: s, .ok ()) := by
    simp [mapClient, Obj.okey, hk]
  have hcreate : CreateOp (some b) s =
      { b := some { b with definition := some { d with resourceVersion := "" },
                           object := some { d with resourceVersion := "" } }
        s := (d.okey, { d with resourceVersion := "" }) :: s
        calls := [.createCall { d with resourceVersion := "" }], err := none } := by
    simp [CreateOp, hv, hcall]
  have hv2 : validated (some ({ b with definition := some { d with resourceVersion := "" }, object := some { d with resourceVersion := "" } } : BuilderState Store)) =
      .ok ({ b with definition := some { d with resourceVersion := "" }, object := some { d with resourceVersion := "" } },
           { d with resourceVersion := "" }, mapClient) := by
    simp [validated, hc, he]
  refine ⟨?_, ?_, ?_⟩
  · simp [hcreate]
  · rw [hcreate]
    simp [GetOp, hv2, mapClient, storeGet, Obj.okey]
  · simp [hcreate]

/-- Witness for C6 at a concrete input: the demo builder over the empty
store. -/
theorem create_then_get_returns_definition_witness :
    demoBuilder.definition = some demoObj ∧
    demoBuilder.client = ClientArg.valid mapClient ∧
    demoBuilder.err = none ∧
    storeGet ([] : Store) demoObj.okey = none ∧
    CreateGetRoundTrip ([] : Store) demoBuilder demoObj :=
  ⟨rfl, rfl, rfl, rfl,
   create_then_get_returns_definition ([] : Store) demoBuilder demoObj rfl rfl rfl rfl⟩

/-- C7: for every non-empty name (and namespace), pulling an absent resource
returns a nil builder and an error whose wrap chain satisfies the not-found
predicate, and pulling a present resource returns a builder whose Definition
and Object are both the fetched state. -/
theorem pull_absent_and_present_semantics (kind name nsname : String) (s : Store)
    (hname : name ≠ "") (hns : nsname ≠ "") :
    PullSemantics kind name nsname s := by
  refine ⟨?_, ?_, ?_, ?_⟩
  · intro habs
    refine ⟨?_, rfl⟩
    simp [PullClusterScopedBuilder, initialBuilder, NewResourceKeyFromBuilder, ClientArg.isNil,
      hname, GetOp, validated, mapClient, Obj.okey, habs]
  · intro o ho
    refine ⟨{ initialBuilder kind (.valid mapClient) name "" with
                object := some o, definition := some o }, ?_, rfl, rfl⟩
    simp [PullClusterScopedBuilder, initialBuilder, NewResourceKeyFromBuilder, ClientArg.isNil,
      hname, GetOp, validated, mapClient, Obj.okey, ho]
  · intro habs
    refine ⟨?_, rfl⟩
    simp [PullNamespacedBuilder, initialBuilder, NewResourceKeyFromBuilder, ClientArg.isNil,
      hname, hns, GetOp, validated, mapClient, Obj.okey, habs]
  · intro o ho
    refine ⟨{ initialBuilder kind (.valid mapClient) name nsname with
                object := some o, definition := some o }, ?_, rfl, rfl⟩
    simp [PullNamespacedBuilder, initialBuilder, NewResourceKeyFromBuilder, ClientArg.isNil,
      hname, hns, GetOp, validated, mapClient, Obj.okey, ho]

/-- Witness for C7 at a concrete input: the name "non-existent" over the demo
store (which does not contain it). -/
theorem pull_absent_and_present_semantics_witness :
    ("non-existent" : String) ≠ "" ∧ ("test-ns" : String) ≠ "" ∧
    PullSemantics "Namespace" "non-existent" "test-ns" demoStore :=
  ⟨by decide, by decide,
   pull_absent_and_present_semantics "Namespace" "non-existent" "test-ns" demoStore
     (by decide) (by decide)⟩

/-- C1: for every valid builder whose resource exists (the pre-update fetch
returns `latest`) and whose update call fails, force=false returns an
APICallFailed("update") error after only the get and update calls, while
force=true deletes then recreates from the definition with its resource
version cleared before the create call, returning nil when both succeed and a
"failed to force update"-wrapped error when either fails. -/
theorem update_force_delete_recreate_semantics {σ : Type} (c : ClientM σ)
    (s s1 s2 : σ) (b : BuilderState σ) (d latest : Obj) (eU : GoError)
    (hd : b.definition = some d) (hc : b.client = .valid c) (he : b.err = none)
    (hget : c.doGet s d.okey = (s1, .ok latest))
    (hupd : c.doUpdate s1 { d with resourceVersion := latest.resourceVersion }
      = (s2, .error eU)) :
    ForceUpdateSemantics c s s2 b d latest eU := by
  have hv := validated_ok b d c hd hc he
  refine ⟨⟨?_, ?_⟩, ?_, ?_⟩
  · simp [UpdateOp, GetOp, hv, hget, hupd]
  · simp [IsAPICallFailedWithVerb]
  · intro s3 u hdel
    constructor
    · intro s4 u' hcr
      simp [UpdateOp, GetOp, DeleteOp, CreateOp, validated, hv, hc, he, hget, hupd, hdel, hcr,
        NewResourceKeyFromBuilder, hd]
    · intro s4 eC hcr hae
      simp [UpdateOp, GetOp, DeleteOp, CreateOp, validated, hv, hc, he, hget, hupd, hdel, hcr,
        hae, NewResourceKeyFromBuilder, hd]
  · intro s3 eD hdel hnf
    constructor
    · simp [UpdateOp, GetOp, DeleteOp, validated, hv, hc, he, hget, hupd, hdel, hnf,
        NewResourceKeyFromBuilder, hd]
    · simp [UpdateOp, GetOp, DeleteOp, validated, hv, hc, he, hget, hupd, hdel, hnf,
        NewResourceKeyFromBuilder, hd]

/-- Witness for C1 at a concrete input: the demo builder wired to the
conflicting client, over a store that contains its resource, so the fetch
succeeds and the update call fails with a conflict. -/
theorem update_force_delete_recreate_semantics_witness :
    conflictBuilder.definition = some demoObj ∧
    conflictBuilder.client = ClientArg.valid conflictClient ∧
    conflictBuilder.err = none ∧
    conflictClient.doGet demoStore demoObj.okey = (demoStore, .ok demoObj) ∧
    conflictClient.doUpdate demoStore { demoObj with resourceVersion := demoObj.resourceVersion }
      = (demoStore, .error (.k8sStatus .conflict)) ∧
    ForceUpdateSemantics conflictClient demoStore demoStore conflictBuilder demoObj demoObj
      (.k8sStatus .conflict) :=
  ⟨rfl, rfl, rfl, rfl, rfl,
   update_force_delete_recreate_semantics conflictClient demoStore demoStore demoStore
     conflictBuilder demoObj demoObj (.k8sStatus .conflict) rfl rfl rfl rfl rfl⟩

theorem isAPIClientNil_wrapMany (ms : List String) (e : GoError) :
    IsAPIClientNil (wrapMany ms e) = IsAPIClientNil e := by
  induction ms with
  | nil => rfl
  | cons m ms ih => simp [wrapMany, IsAPIClientNil, ih]

theorem isSchemeAttacherFailed_wrapMany (ms : List String) (e : GoError) :
    IsSchemeAttacherFailed (wrapMany ms e) = IsSchemeAttacherFailed e := by
  induction ms with
  | nil => rfl
  | cons m ms ih => simp [wrapMany, IsSchemeAttacherFailed, ih]

theorem isBuilderNameEmpty_wrapMany (ms : List String) (e : GoError) :
    IsBuilderNameEmpty (wrapMany ms e) = IsBuilderNameEmpty e := by
  induction ms with
  | nil => rfl
  | cons m ms ih => simp [wrapMany, IsBuilderNameEmpty, ih]

theorem isBuilderNamespaceEmpty_wrapMany (ms : List String) (e : GoError) :
    IsBuilderNamespaceEmpty (wrapMany ms e) = IsBuilderNamespaceEmpty e := by
  induction ms with
  | nil => rfl
  | cons m ms ih => simp [wrapMany, IsBuilderNamespaceEmpty, ih]

theorem isAPICallFailed_wrapMany (ms : List String) (e : GoError) :
    IsAPICallFailed (wrapMany ms e) = IsAPICallFailed e := by
  induction ms with
  | nil => rfl
  | cons m ms ih => simp [wrapMany, IsAPICallFailed, ih]

theorem isAPICallFailedWithVerb_wrapMany (ms : List String) (e : GoError) (v : String) :
    IsAPICallFailedWithVerb (wrapMany ms e) v = IsAPICallFailedWithVerb e v := by
  induction ms with
  | nil => rfl
  | cons m ms ih => simp [wrapMany, IsAPICallFailedWithVerb, ih]

theorem isBuilderNil_wrapMany (ms : List String) (e : GoError) :
    IsBuilderNil (wrapMany ms e) = IsBuilderNil e := by
  induction ms with
  | nil => rfl
  | cons m ms ih => simp [wrapMany, IsBuilderNil, ih]

theorem isBuilderDefinitionNil_wrapMany (ms : List String) (e : GoError) :
    IsBuilderDefinitionNil (wrapMany ms e) = IsBuilderDefinitionNil e := by
  induction ms with
  | nil => rfl
  | cons m ms ih => simp [wrapMany, IsBuilderDefinitionNil, ih]

/-- On a taxonomy-free error every predicate of the taxonomy is false. -/
theorem taxfree_no_predicate (e : GoError) (h : TaxonomyFree e = true) :
    IsAPIClientNil e = false ∧ IsSchemeAttacherFailed e = false ∧
    IsBuilderNameEmpty e = false ∧ IsBuilderNamespaceEmpty e = false ∧
    IsAPICallFailed e = false ∧ (∀ v, IsAPICallFailedWithVerb e v = false) ∧
    IsBuilderNil e = false ∧ IsBuilderDefinitionNil e = false := by
  induction e <;>
    simp_all [TaxonomyFree, IsAPIClientNil, IsSchemeAttacherFailed, IsBuilderNameEmpty,
      IsBuilderNamespaceEmpty, IsAPICallFailed, IsAPICallFailedWithVerb, IsBuilderNil,
      IsBuilderDefinitionNil]

/-- C9: every error built by one of the six taxonomy constructors, over a
taxonomy-free cause and wrapped any number of times, satisfies exactly its
own predicate; predicates of other kinds, of another verb, or of another
field are false. -/
theorem error_predicate_truth_table (ms : List String) (rk : ResourceKey)
    (kind verb verb2 : String) (cause : GoError)
    (hcause : TaxonomyFree cause = true) (hvv : verb ≠ verb2) :
    PredicateTable ms rk kind verb verb2 cause := by
  obtain ⟨h1, h2, h3, h4, h5, h6, h7, h8⟩ := taxfree_no_predicate cause hcause
  refine ⟨?_, ?_, ?_, ?_, ?_, ?_, ?_⟩ <;>
    simp [predicateVector, isAPIClientNil_wrapMany, isSchemeAttacherFailed_wrapMany,
      isBuilderNameEmpty_wrapMany, isBuilderNamespaceEmpty_wrapMany, isAPICallFailed_wrapMany,
      isAPICallFailedWithVerb_wrapMany, isBuilderNil_wrapMany, isBuilderDefinitionNil_wrapMany,
      IsAPIClientNil, IsSchemeAttacherFailed, IsBuilderNameEmpty, IsBuilderNamespaceEmpty,
      IsAPICallFailed, IsAPICallFailedWithVerb, IsBuilderNil, IsBuilderDefinitionNil,
      h1, h2, h3, h4, h5, h6, h7, h8, hvv]

/-- Witness for C9 at a concrete input: two levels of wrapping over a plain
cause, with verbs "get" and "update". -/
theorem error_predicate_truth_table_witness :
    TaxonomyFree (.simple "boom") = true ∧ ("get" : String) ≠ "update" ∧
    PredicateTable ["outer", "inner"] ⟨"Namespace", "a", "b"⟩ "Namespace" "get" "update"
      (.simple "boom") :=
  ⟨rfl, by decide,
   error_predicate_truth_table ["outer", "inner"] ⟨"Namespace", "a", "b"⟩ "Namespace" "get"
     "update" (.simple "boom") rfl (by decide)⟩

end EcoGoinfra
